import Mathlib

/-!
Shallow embedding of the data-access layer of the F1 dashboard
(`model/f1_model.py`), together with the load layer (`__post_init__` /
`_load_csv`) and the status-column selection made by the results view
(`controller/callbacks.py`).

Modelling conventions, used uniformly below:
* a pandas DataFrame is a `List` of row structures carrying the columns the
  query layer reads;
* a column is `Option`-typed exactly when the source handles its absence
  (`pd.to_numeric(..., errors="coerce")`, `pd.notna` checks, `dropna`,
  NaN-dropping `groupby` keys, columns produced by a left join); join keys
  and schema-mandatory text columns are plain values;
* `series == value` filters never match a NaN cell or a `None` argument,
  mirroring pandas comparison semantics;
* `DataFrame.merge(..., how="left")` keeps every left row, pairing it with
  each matching right row, or with an absent right row when nothing matches
  (pandas merge treats NaN join keys as equal, which `Option` equality on
  the key mirrors);
* `groupby` drops rows whose key is absent and `groupby(...).size()` counts
  the surviving rows per key; the order in which groups are emitted is not
  relied on by any property below, so groups are listed in first-occurrence
  order (`List.dedup`);
* `sort_values` becomes `sortBy` with the corresponding comparator
  (`NaN` placed last, as with pandas `na_position="last"`).
-/

namespace F1

/-! ## Row types (one structure per loaded table) -/

/-- Row of `races.csv`; `year` is coerced to numeric in `__post_init__`. -/
structure RaceRow where
  raceId : Nat
  year : Option Int
  round : Int
  name : String
  circuitId : Nat
deriving DecidableEq

/-- Row of `drivers.csv`; `code`, `forename`, `surname` may be NA (the
labelling rule checks them with `pd.notna`). -/
structure DriverRow where
  driverId : Nat
  code : Option String
  forename : Option String
  surname : Option String
deriving DecidableEq

/-- Row of `driver_standings.csv` (cumulative snapshot per race). -/
structure DriverStandingRow where
  raceId : Nat
  driverId : Nat
  points : Option Int
  wins : Option Int
  position : Option Int
deriving DecidableEq

/-- Row of `constructors.csv`. -/
structure ConstructorRow where
  constructorId : Nat
  name : String
deriving DecidableEq

/-- Row of `constructor_standings.csv` (cumulative snapshot per race). -/
structure ConstructorStandingRow where
  raceId : Nat
  constructorId : Nat
  points : Option Int
  wins : Option Int
  position : Option Int
deriving DecidableEq

/-- Row of `results.csv`; the numeric columns the query coerces are
`Option`-typed, and `statusId` is coerced before the status join. -/
structure ResultRow where
  raceId : Nat
  driverId : Nat
  constructorId : Nat
  grid : Option Int
  positionOrder : Option Int
  points : Option Int
  laps : Option Int
  statusId : Option Nat
deriving DecidableEq

/-- Row of `status.csv`; `statusId` is coerced to numeric before the join. -/
structure StatusRow where
  statusId : Option Nat
  status : String
deriving DecidableEq

/-- Row of `lap_times.csv`. -/
structure LapTimeRow where
  raceId : Nat
  driverId : Nat
  lap : Int
  milliseconds : Option Int
deriving DecidableEq

/-- Row of `pit_stops.csv`. -/
structure PitStopRow where
  raceId : Nat
  driverId : Nat
  stop : Nat
  milliseconds : Option Int
deriving DecidableEq

/-- Row of `sprint_results.csv`. -/
structure SprintResultRow where
  raceId : Nat
  driverId : Nat
  constructorId : Nat
  grid : Option Int
  position : Option Int
  positionOrder : Option Int
  points : Option Int
  laps : Option Int
deriving DecidableEq

/-- Row of `circuits.csv`; `lat`/`lng` may be absent or non-numeric, which
the circuit-locations query handles, so they are `Option`-typed. -/
structure CircuitRow where
  circuitId : Nat
  name : String
  location : String
  country : String
  lat : Option Rat
  lng : Option Rat
deriving DecidableEq

/-- A raw table as produced by the load layer: rows of cells, a cell being
absent when it held the `\N` sentinel. -/
abbrev RawTable := List (List (Option String))

/-- The loaded `F1DataModel`: one field per table of `__post_init__`.
`constructor_results`, `qualifying` and `seasons` are loaded but never read
by a query, so they stay raw. -/
structure F1DataModel where
  races : List RaceRow
  results : List ResultRow
  drivers : List DriverRow
  driver_standings : List DriverStandingRow
  constructors : List ConstructorRow
  constructor_standings : List ConstructorStandingRow
  constructor_results : RawTable
  lap_times : List LapTimeRow
  pit_stops : List PitStopRow
  qualifying : RawTable
  seasons : RawTable
  status : List StatusRow
  sprint_results : List SprintResultRow
  circuits : List CircuitRow
deriving DecidableEq

/-! ## Load layer (`_load_csv` / `__post_init__`) -/

/-- The files `__post_init__` loads, in load order. -/
def requiredFiles : List String :=
  ["races.csv", "results.csv", "drivers.csv", "driver_standings.csv",
   "constructors.csv", "constructor_standings.csv", "constructor_results.csv",
   "lap_times.csv", "pit_stops.csv", "qualifying.csv", "seasons.csv",
   "status.csv", "sprint_results.csv", "circuits.csv"]

/-- Missing-value normalization done by `_load_csv` (`na_values="\\N"` at
parse time plus the explicit `\N -> NA` replacement loop). -/
def normalizeCell (s : String) : Option String :=
  if s == "\\N" then none else some s

/-- `_load_csv`: a missing file raises `FileNotFoundError`; otherwise the
parsed table with the sentinel normalized. `env` is the filesystem: the
table of cells a file name parses to, when the file exists. -/
def load_csv (env : String → Option (List (List String))) (name : String) :
    Except String RawTable :=
  match env name with
  | none => Except.error ("Arquivo nao encontrado: " ++ name)
  | some rows => Except.ok (rows.map (fun row => row.map normalizeCell))

/-- Sequential loading of a list of files, stopping at the first failure,
as the straight-line body of `__post_init__` does. -/
def load_all (env : String → Option (List (List String))) :
    List String → Except String (List (String × RawTable))
  | [] => Except.ok []
  | n :: ns =>
    match load_csv env n with
    | Except.error e => Except.error e
    | Except.ok t =>
      match load_all env ns with
      | Except.error e => Except.error e
      | Except.ok ts => Except.ok ((n, t) :: ts)

/-- `__post_init__`: load every required file in order; the result is either
the full set of loaded tables or the error of the first missing file. -/
def post_init (env : String → Option (List (List String))) :
    Except String (List (String × RawTable)) :=
  load_all env requiredFiles

/-! ## Shared query helpers -/

/-- `races["year"] == year`: a NaN cell or a null argument never matches. -/
def yearMatches (cell : Option Int) (arg : Option Int) : Bool :=
  match cell, arg with
  | some a, some b => a == b
  | _, _ => false

/-- `df["someId"] == key`: a null key never matches. -/
def idMatches (cell : Nat) (arg : Option Nat) : Bool :=
  match arg with
  | some b => cell == b
  | none => false

/-- `left.merge(right, on=key, how="left")`, restricted to one left row:
every matching right row is attached; an absent partner when none match. -/
def leftJoin {α β κ : Type} [BEq κ] (keyL : α → κ) (keyR : β → κ)
    (right : List β) (l : α) : List (α × Option β) :=
  let ms := right.filter (fun r => keyR r == keyL l)
  if ms.isEmpty then [(l, none)] else ms.map (fun r => (l, some r))

/-- Largest `rid` value over a list of rows (`0` on the empty list, which
the callers never hit). -/
def maxKey {α : Type} (rid : α → Nat) : List α → Nat
  | [] => 0
  | r :: rs => max (rid r) (maxKey rid rs)

/-- The distinct group keys of `rows.groupby(key)`, in first-occurrence
order (the source emits them sorted; no property below depends on it). -/
def groupKeys {α : Type} (key : α → Nat) (rows : List α) : List Nat :=
  (rows.map key).dedup

/-- `rows.groupby(key)["raceId"].idxmax()` followed by `rows.loc[idx]`:
for each group, the first row attaining the group's maximum `rid`. -/
def selectFinal {α : Type} (key : α → Nat) (rid : α → Nat) (rows : List α) :
    List α :=
  (groupKeys key rows).filterMap (fun k =>
    (rows.filter (fun r => key r == k)).find?
      (fun r => rid r == maxKey rid (rows.filter (fun r2 => key r2 == k))))

/-- The per-row driver labelling closure, duplicated verbatim at
`f1_model.py` lines 80, 156 and 224 (and in the pit-stop callback): code if
present, else first initial plus surname, else the raw identifier. -/
def driverLabel (code forename surname : Option String) (driverId : Nat) :
    String :=
  match code with
  | some c => c
  | none =>
    match forename, surname with
    | some f, some s => f.take 1 ++ ". " ++ s
    | _, _ => toString driverId

/-- Descending strict comparison on a nullable numeric column. -/
def optDescLt : Option Int → Option Int → Bool
  | none, _ => false
  | some _, none => true
  | some a, some b => decide (b < a)

/-- Descending non-strict comparison on a nullable numeric column, NaN
placed last (`na_position="last"`). -/
def optDescLe : Option Int → Option Int → Bool
  | none, none => true
  | none, some _ => false
  | some _, none => true
  | some a, some b => decide (b ≤ a)

/-- Ascending non-strict comparison on a nullable numeric column, NaN
placed last. -/
def optAscLe : Option Int → Option Int → Bool
  | none, none => true
  | none, some _ => false
  | some _, none => true
  | some a, some b => decide (a ≤ b)

/-- `sort_values(["points", "wins"], ascending=[False, False])` as a
comparator on the two key columns. -/
def standLe (p1 w1 p2 w2 : Option Int) : Bool :=
  optDescLt p1 p2 || (p1 == p2 && optDescLe w1 w2)

/-- Inserts an element into a list sorted by `le`, keeping it sorted. -/
def insertSorted {α : Type} (le : α → α → Bool) (x : α) : List α → List α
  | [] => [x]
  | y :: ys => if le x y then x :: y :: ys else y :: insertSorted le x ys

/-- `DataFrame.sort_values` with comparator `le`: an insertion sort (the
embedding only relies on the output being a sorted permutation of the
input, which any comparison sort, pandas's included, guarantees). -/
def sortBy {α : Type} (le : α → α → Bool) (l : List α) : List α :=
  l.foldr (insertSorted le) []

/-! ## Season filtering -/

/-- Output row of `get_races_for_year` (columns `raceId`, `name`, `round`). -/
structure RaceOut where
  raceId : Nat
  name : String
  round : Int
deriving DecidableEq

/-- `get_races_for_year`: filter by year, sort by round, project columns. -/
def get_races_for_year (m : F1DataModel) (year : Option Int) : List RaceOut :=
  (sortBy (fun a b => a.round ≤ b.round)
      (m.races.filter (fun r => yearMatches r.year year))).map
    (fun r => { raceId := r.raceId, name := r.name, round := r.round })

/-! ## Championship standings -/

/-- `races_year` of the standings queries. -/
def seasonRaces (m : F1DataModel) (year : Option Int) : List RaceRow :=
  m.races.filter (fun r => yearMatches r.year year)

/-- `race_ids` of the standings queries. -/
def seasonRaceIds (m : F1DataModel) (year : Option Int) : List Nat :=
  (seasonRaces m year).map (fun r => r.raceId)

/-- `ds`: the season's driver-standings snapshot rows. -/
def seasonDriverStandings (m : F1DataModel) (year : Option Int) :
    List DriverStandingRow :=
  m.driver_standings.filter (fun s => (seasonRaceIds m year).contains s.raceId)

/-- `cs`: the season's constructor-standings snapshot rows. -/
def seasonConstructorStandings (m : F1DataModel) (year : Option Int) :
    List ConstructorStandingRow :=
  m.constructor_standings.filter
    (fun s => (seasonRaceIds m year).contains s.raceId)

/-- Output row of `get_driver_championship_standings`. -/
structure DriverStandOut where
  driverId : Nat
  points : Option Int
  wins : Option Int
  position : Option Int
  code : Option String
  forename : Option String
  surname : Option String
  driverLabel : String
deriving DecidableEq

/-- `get_driver_championship_standings`: final snapshot per driver of the
season, joined with `drivers`, labelled, sorted by points then wins
descending. -/
def get_driver_championship_standings (m : F1DataModel) (year : Option Int) :
    List DriverStandOut :=
  if (seasonRaces m year).isEmpty then [] else
  let ds := seasonDriverStandings m year
  if ds.isEmpty then [] else
  let final_ds := selectFinal (fun s => s.driverId) (fun s => s.raceId) ds
  let merged := final_ds.flatMap
    (leftJoin (fun s => s.driverId) (fun d => d.driverId) m.drivers)
  let out : List DriverStandOut := merged.map (fun p =>
    { driverId := p.1.driverId
      points := p.1.points
      wins := p.1.wins
      position := p.1.position
      code := p.2.bind (fun d => d.code)
      forename := p.2.bind (fun d => d.forename)
      surname := p.2.bind (fun d => d.surname)
      driverLabel := driverLabel (p.2.bind (fun d => d.code))
        (p.2.bind (fun d => d.forename)) (p.2.bind (fun d => d.surname))
        p.1.driverId })
  sortBy (fun a b => standLe a.points a.wins b.points b.wins) out

/-- Output row of `get_constructor_championship_standings`; `name` comes
from the left join with `constructors` and so may be absent. -/
structure ConstructorStandOut where
  constructorId : Nat
  points : Option Int
  wins : Option Int
  position : Option Int
  name : Option String
deriving DecidableEq

/-- `get_constructor_championship_standings`: final snapshot per constructor
of the season, joined with `constructors`, sorted by points then wins
descending. -/
def get_constructor_championship_standings (m : F1DataModel)
    (year : Option Int) : List ConstructorStandOut :=
  if (seasonRaces m year).isEmpty then [] else
  let cs := seasonConstructorStandings m year
  if cs.isEmpty then [] else
  let final_cs := selectFinal (fun s => s.constructorId) (fun s => s.raceId) cs
  let merged := final_cs.flatMap
    (leftJoin (fun s => s.constructorId) (fun c => c.constructorId)
      m.constructors)
  let out : List ConstructorStandOut := merged.map (fun p =>
    { constructorId := p.1.constructorId
      points := p.1.points
      wins := p.1.wins
      position := p.1.position
      name := p.2.map (fun c => c.name) })
  sortBy (fun a b => standLe a.points a.wins b.points b.wins) out

/-! ## Race results, status counts, lap times, pit stops, sprints -/

/-- The merged columns of one race-result row before the status join. -/
structure ResultPre where
  raceId : Nat
  driverId : Nat
  constructorId : Nat
  grid : Option Int
  positionOrder : Option Int
  points : Option Int
  laps : Option Int
  statusId : Option Nat
  code : Option String
  forename : Option String
  surname : Option String
  constructorName : Option String
deriving DecidableEq

/-- Output row of `get_race_results`. -/
structure ResultOut where
  raceId : Nat
  driverId : Nat
  constructorId : Nat
  grid : Option Int
  positionOrder : Option Int
  points : Option Int
  laps : Option Int
  statusId : Option Nat
  code : Option String
  forename : Option String
  surname : Option String
  constructorName : Option String
  statusText : Option String
  driverLabel : String
deriving DecidableEq

/-- Assembles the final race-result row from the pre-status columns and the
status join partner, computing the driver label from the merged columns. -/
def mkResultOut (q : ResultPre) (t : Option String) : ResultOut :=
  { raceId := q.raceId
    driverId := q.driverId
    constructorId := q.constructorId
    grid := q.grid
    positionOrder := q.positionOrder
    points := q.points
    laps := q.laps
    statusId := q.statusId
    code := q.code
    forename := q.forename
    surname := q.surname
    constructorName := q.constructorName
    statusText := t
    driverLabel := driverLabel q.code q.forename q.surname q.driverId }

/-- `get_race_results`: filter by race, join drivers and constructors, then
left-join `status` on the coerced `statusId` when the status table is
nonempty (the `statusId` column always exists in the typed rows, so the
source's `"statusId" in res.columns` guard is always satisfied); the merge
being skipped is the source's "no `statusText` column" state. -/
def get_race_results (m : F1DataModel) (race_id : Option Nat) :
    List ResultOut :=
  let res := m.results.filter (fun r => idMatches r.raceId race_id)
  if res.isEmpty then [] else
  let wd := res.flatMap
    (leftJoin (fun r => r.driverId) (fun d => d.driverId) m.drivers)
  let wc := wd.flatMap
    (leftJoin (fun p => p.1.constructorId) (fun c => c.constructorId)
      m.constructors)
  let pre : List ResultPre := wc.map (fun p =>
    { raceId := p.1.1.raceId
      driverId := p.1.1.driverId
      constructorId := p.1.1.constructorId
      grid := p.1.1.grid
      positionOrder := p.1.1.positionOrder
      points := p.1.1.points
      laps := p.1.1.laps
      statusId := p.1.1.statusId
      code := p.1.2.bind (fun d => d.code)
      forename := p.1.2.bind (fun d => d.forename)
      surname := p.1.2.bind (fun d => d.surname)
      constructorName := p.2.map (fun c => c.name) })
  if m.status.isEmpty then pre.map (fun q => mkResultOut q none)
  else pre.flatMap (fun q =>
    (leftJoin (fun q2 : ResultPre => q2.statusId) (fun st => st.statusId)
        m.status q).map
      (fun pr => mkResultOut pr.1 (pr.2.map (fun st => st.status))))

/-- Whether the result table carries a `statusText` column (the status merge
ran), as tested by `"statusText" in res.columns`. -/
def hasStatusTextCol (m : F1DataModel) : Bool :=
  !m.status.isEmpty

/-- The status value the results view displays for a row
(`callbacks.py` line 138): the `statusText` column when it exists, else the
raw `statusId` column. -/
def resultStatusValue (m : F1DataModel) (row : ResultOut) : Option String :=
  if hasStatusTextCol m then row.statusText
  else row.statusId.map (fun n => toString n)

/-- Output row of `get_status_counts_for_race`. -/
structure StatusCountRow where
  statusText : String
  count : Nat
deriving DecidableEq

/-- `get_status_counts_for_race`: group the race results by `statusText`
(rows with an absent text are dropped by `groupby`), count rows per text,
sort by count descending. -/
def get_status_counts_for_race (m : F1DataModel) (race_id : Option Nat) :
    List StatusCountRow :=
  let res := get_race_results m race_id
  if res.isEmpty || !hasStatusTextCol m then [] else
  let texts := res.filterMap (fun r => r.statusText)
  sortBy (fun a b => b.count ≤ a.count)
    (texts.dedup.map (fun t => { statusText := t, count := texts.count t })
      : List StatusCountRow)

/-- `get_lap_times_for_driver`: filter by race and driver, sort by lap. -/
def get_lap_times_for_driver (m : F1DataModel)
    (race_id driver_id : Option Nat) : List LapTimeRow :=
  let laps := m.lap_times.filter
    (fun l => idMatches l.raceId race_id && idMatches l.driverId driver_id)
  if laps.isEmpty then [] else
  sortBy (fun a b => a.lap ≤ b.lap) laps

/-- `get_pitstops_for_race`: filter by race (milliseconds already coerced in
the typed rows). -/
def get_pitstops_for_race (m : F1DataModel) (race_id : Option Nat) :
    List PitStopRow :=
  let pits := m.pit_stops.filter (fun p => idMatches p.raceId race_id)
  if pits.isEmpty then [] else pits

/-- Output row of `get_sprint_results_for_race`. -/
structure SprintOut where
  raceId : Nat
  driverId : Nat
  constructorId : Nat
  grid : Option Int
  position : Option Int
  positionOrder : Option Int
  points : Option Int
  laps : Option Int
  code : Option String
  forename : Option String
  surname : Option String
  constructorName : Option String
  driverLabel : String
deriving DecidableEq

/-- `get_sprint_results_for_race`: filter by race, join drivers and
constructors, label, sort by `positionOrder` (always a column in the typed
rows, so the source's fallback to `position` is not taken). -/
def get_sprint_results_for_race (m : F1DataModel) (race_id : Option Nat) :
    List SprintOut :=
  let sr := m.sprint_results.filter (fun r => idMatches r.raceId race_id)
  if sr.isEmpty then [] else
  let wd := sr.flatMap
    (leftJoin (fun r => r.driverId) (fun d => d.driverId) m.drivers)
  let wc := wd.flatMap
    (leftJoin (fun p => p.1.constructorId) (fun c => c.constructorId)
      m.constructors)
  let out : List SprintOut := wc.map (fun p =>
    { raceId := p.1.1.raceId
      driverId := p.1.1.driverId
      constructorId := p.1.1.constructorId
      grid := p.1.1.grid
      position := p.1.1.position
      positionOrder := p.1.1.positionOrder
      points := p.1.1.points
      laps := p.1.1.laps
      code := p.1.2.bind (fun d => d.code)
      forename := p.1.2.bind (fun d => d.forename)
      surname := p.1.2.bind (fun d => d.surname)
      constructorName := p.2.map (fun c => c.name)
      driverLabel := driverLabel (p.1.2.bind (fun d => d.code))
        (p.1.2.bind (fun d => d.forename)) (p.1.2.bind (fun d => d.surname))
        p.1.1.driverId })
  sortBy (fun a b => optAscLe a.positionOrder b.positionOrder) out

/-! ## Historical / aggregate views -/

/-- `get_years`: distinct non-NaN years, ascending. -/
def get_years (m : F1DataModel) : List Int :=
  (sortBy (fun a b => a ≤ b) (m.races.filterMap (fun r => r.year))).dedup

/-- Output row of `get_races_per_season`. -/
structure SeasonCount where
  year : Int
  raceCount : Nat
deriving DecidableEq

/-- `get_races_per_season`: group races by year (NaN years dropped), count,
sort by year ascending. -/
def get_races_per_season (m : F1DataModel) : List SeasonCount :=
  let ys := m.races.filterMap (fun r => r.year)
  sortBy (fun a b => a.year ≤ b.year)
    (ys.dedup.map (fun y => { year := y, raceCount := ys.count y })
      : List SeasonCount)

/-- Output row of `get_race_counts_by_country`. -/
structure CountryCount where
  country : String
  raceCount : Nat
deriving DecidableEq

/-- `get_race_counts_by_country`: optionally filter races to one year, join
circuits, group by country (unmatched joins give a NaN country, dropped by
`groupby`), count, sort by count descending; the `circuitId` columns always
exist in the typed rows. -/
def get_race_counts_by_country (m : F1DataModel) (year : Option Int) :
    List CountryCount :=
  let races := match year with
    | none => m.races
    | some _ => m.races.filter (fun r => yearMatches r.year year)
  if races.isEmpty then [] else
  if m.circuits.isEmpty then [] else
  let joined := races.flatMap
    (leftJoin (fun r => r.circuitId) (fun c => c.circuitId) m.circuits)
  let cs := joined.filterMap (fun p => p.2.map (fun c => c.country))
  sortBy (fun a b => b.raceCount ≤ a.raceCount)
    (cs.dedup.map (fun c => { country := c, raceCount := cs.count c })
      : List CountryCount)

/-- Output row of `get_circuit_locations`. -/
structure CircuitLocOut where
  circuitId : Nat
  circuitName : String
  location : String
  country : String
  lat : Option Rat
  lng : Option Rat
  raceCount : Nat
deriving DecidableEq

/-- `get_circuit_locations`: join races to the circuit subset, group by the
circuit identity columns (`groupby` drops rows where any key — in the typed
rows, the whole circuit partner or one of `lat`/`lng` — is absent), count
races per circuit, and drop rows lacking coordinates. -/
def get_circuit_locations (m : F1DataModel) : List CircuitLocOut :=
  if m.races.isEmpty || m.circuits.isEmpty then [] else
  let merged := m.races.flatMap
    (leftJoin (fun r => r.circuitId) (fun c => c.circuitId) m.circuits)
  let keyed := merged.filterMap (fun p =>
    match p.2 with
    | some c =>
      match c.lat, c.lng with
      | some la, some ln =>
        some (c.circuitId, c.name, c.location, c.country, la, ln)
      | _, _ => none
    | none => none)
  let grouped : List CircuitLocOut := keyed.dedup.map (fun k =>
    { circuitId := k.1
      circuitName := k.2.1
      location := k.2.2.1
      country := k.2.2.2.1
      lat := some k.2.2.2.2.1
      lng := some k.2.2.2.2.2
      raceCount := keyed.count k })
  grouped.filter (fun g => g.lat.isSome && g.lng.isSome)

/-! ## State-passing forms of the queries

The source methods read `self.<table>` fields and write only to local
copies (`.filter(...)` results and explicit `.copy()` calls); no method
assigns to a field of `self`.  Their state-passing embeddings therefore
return the model unchanged alongside the pure result. -/

/-- State-passing `get_races_for_year`. -/
def get_races_for_yearM (m : F1DataModel) (year : Option Int) :
    List RaceOut × F1DataModel :=
  (get_races_for_year m year, m)

/-- State-passing `get_driver_championship_standings`. -/
def get_driver_championship_standingsM (m : F1DataModel) (year : Option Int) :
    List DriverStandOut × F1DataModel :=
  (get_driver_championship_standings m year, m)

/-- State-passing `get_constructor_championship_standings`. -/
def get_constructor_championship_standingsM (m : F1DataModel)
    (year : Option Int) : List ConstructorStandOut × F1DataModel :=
  (get_constructor_championship_standings m year, m)

/-- State-passing `get_race_results`. -/
def get_race_resultsM (m : F1DataModel) (race_id : Option Nat) :
    List ResultOut × F1DataModel :=
  (get_race_results m race_id, m)

/-- State-passing `get_lap_times_for_driver`. -/
def get_lap_times_for_driverM (m : F1DataModel)
    (race_id driver_id : Option Nat) : List LapTimeRow × F1DataModel :=
  (get_lap_times_for_driver m race_id driver_id, m)

/-- State-passing `get_pitstops_for_race`. -/
def get_pitstops_for_raceM (m : F1DataModel) (race_id : Option Nat) :
    List PitStopRow × F1DataModel :=
  (get_pitstops_for_race m race_id, m)

/-- State-passing `get_status_counts_for_race`. -/
def get_status_counts_for_raceM (m : F1DataModel) (race_id : Option Nat) :
    List StatusCountRow × F1DataModel :=
  (get_status_counts_for_race m race_id, m)

/-- State-passing `get_sprint_results_for_race`. -/
def get_sprint_results_for_raceM (m : F1DataModel) (race_id : Option Nat) :
    List SprintOut × F1DataModel :=
  (get_sprint_results_for_race m race_id, m)

/-- State-passing `get_years`. -/
def get_yearsM (m : F1DataModel) : List Int × F1DataModel :=
  (get_years m, m)

/-- State-passing `get_races_per_season`. -/
def get_races_per_seasonM (m : F1DataModel) :
    List SeasonCount × F1DataModel :=
  (get_races_per_season m, m)

/-- State-passing `get_race_counts_by_country`. -/
def get_race_counts_by_countryM (m : F1DataModel) (year : Option Int) :
    List CountryCount × F1DataModel :=
  (get_race_counts_by_country m year, m)

/-- State-passing `get_circuit_locations`. -/
def get_circuit_locationsM (m : F1DataModel) :
    List CircuitLocOut × F1DataModel :=
  (get_circuit_locations m, m)

/-! ## Concrete instances used to evaluate the theorems -/

/-- A small loaded model: one 2021 season with races 10 and 12, a driver
with standings snapshots at both races, a tied rival, results with one
matched and one unmatched status, and a circuit with and one without
coordinates. -/
def mEx : F1DataModel :=
  { races := [{ raceId := 10, year := some 2021, round := 1, name := "GP A",
                circuitId := 1 },
              { raceId := 12, year := some 2021, round := 2, name := "GP B",
                circuitId := 2 }]
    results := [{ raceId := 12, driverId := 44, constructorId := 1,
                  grid := some 1, positionOrder := some 1, points := some 25,
                  laps := some 57, statusId := some 1 },
                { raceId := 12, driverId := 99, constructorId := 1,
                  grid := some 2, positionOrder := some 2, points := some 18,
                  laps := some 57, statusId := some 9 }]
    drivers := [{ driverId := 44, code := some "HAM", forename := some "Lewis",
                  surname := some "Hamilton" },
                { driverId := 7, code := none, forename := some "Kimi",
                  surname := some "Raikkonen" },
                { driverId := 99, code := none, forename := none,
                  surname := none }]
    driver_standings := [{ raceId := 10, driverId := 44, points := some 50,
                           wins := some 1, position := some 1 },
                         { raceId := 12, driverId := 44, points := some 75,
                           wins := some 2, position := some 1 },
                         { raceId := 12, driverId := 7, points := some 75,
                           wins := some 1, position := some 2 },
                         { raceId := 12, driverId := 99, points := some 40,
                           wins := some 0, position := some 3 }]
    constructors := [{ constructorId := 1, name := "Mercedes" }]
    constructor_standings := [{ raceId := 10, constructorId := 1,
                                points := some 80, wins := some 1,
                                position := some 1 },
                              { raceId := 12, constructorId := 1,
                                points := some 120, wins := some 2,
                                position := some 1 }]
    constructor_results := []
    lap_times := [{ raceId := 12, driverId := 44, lap := 1,
                    milliseconds := some 90000 },
                  { raceId := 12, driverId := 44, lap := 2,
                    milliseconds := some 89000 }]
    pit_stops := [{ raceId := 12, driverId := 44, stop := 1,
                    milliseconds := some 21000 }]
    qualifying := []
    seasons := []
    status := [{ statusId := some 1, status := "Finished" }]
    sprint_results := [{ raceId := 12, driverId := 44, constructorId := 1,
                         grid := some 1, position := some 1,
                         positionOrder := some 1, points := some 8,
                         laps := some 17 }]
    circuits := [{ circuitId := 1, name := "Circuit A", location := "Loc A",
                   country := "Country A", lat := some 1, lng := some 2 },
                 { circuitId := 2, name := "Circuit B", location := "Loc B",
                   country := "Country B", lat := none, lng := some 3 }] }

/-- `mEx` with an empty status reference table (no `statusText` column). -/
def mNoStatus : F1DataModel :=
  { mEx with status := [] }

/-- The final-standings row `mEx` produces for driver 44. -/
def rowHAM : DriverStandOut :=
  { driverId := 44, points := some 75, wins := some 2, position := some 1,
    code := some "HAM", forename := some "Lewis", surname := some "Hamilton",
    driverLabel := "HAM" }

/-- The race-result row `mEx` produces for driver 44 at race 12. -/
def rowRes44 : ResultOut :=
  { raceId := 12, driverId := 44, constructorId := 1, grid := some 1,
    positionOrder := some 1, points := some 25, laps := some 57,
    statusId := some 1, code := some "HAM", forename := some "Lewis",
    surname := some "Hamilton", constructorName := some "Mercedes",
    statusText := some "Finished", driverLabel := "HAM" }

/-- The race-result row `mNoStatus` produces for driver 44 at race 12. -/
def rowRes44NoStatus : ResultOut :=
  { rowRes44 with statusText := none }

/-- The sprint-result row `mEx` produces for driver 44 at race 12. -/
def rowSprint44 : SprintOut :=
  { raceId := 12, driverId := 44, constructorId := 1, grid := some 1,
    position := some 1, positionOrder := some 1, points := some 8,
    laps := some 17, code := some "HAM", forename := some "Lewis",
    surname := some "Hamilton", constructorName := some "Mercedes",
    driverLabel := "HAM" }

/-- The circuit-location row `mEx` produces for circuit 1. -/
def rowCirc1 : CircuitLocOut :=
  { circuitId := 1, circuitName := "Circuit A", location := "Loc A",
    country := "Country A", lat := some 1, lng := some 2, raceCount := 1 }

/-- A filesystem with no files at all. -/
def envEmpty : String → Option (List (List String)) := fun _ => none

/-! ## Helper lemmas -/

theorem yearMatches_some_iff {cell : Option Int} {y : Int} :
    yearMatches cell (some y) = true ↔ cell = some y := by
  cases cell <;> simp [yearMatches]

theorem yearMatches_none (cell : Option Int) : yearMatches cell none = false := by
  cases cell <;> rfl

theorem idMatches_some_iff {cell : Nat} {k : Nat} :
    idMatches cell (some k) = true ↔ cell = k := by
  simp [idMatches]

theorem idMatches_none (cell : Nat) : idMatches cell none = false := rfl

theorem maxKey_ge {α : Type} (rid : α → Nat) (rows : List α) :
    ∀ r ∈ rows, rid r ≤ maxKey rid rows := by
  induction rows with
  | nil => intro r hr; cases hr
  | cons a as ih =>
    intro r hr
    rcases List.mem_cons.mp hr with h | h
    · subst h; simp only [maxKey]; omega
    · have := ih r h; simp only [maxKey]; omega

theorem mem_leftJoin {α β κ : Type} [BEq κ] {keyL : α → κ} {keyR : β → κ}
    {right : List β} {l : α} {p : α × Option β}
    (h : p ∈ leftJoin keyL keyR right l) :
    p.1 = l ∧
    (p.2 = none → ∀ b ∈ right, ¬(keyR b == keyL l) = true) ∧
    (∀ b, p.2 = some b → b ∈ right ∧ (keyR b == keyL l) = true) := by
  unfold leftJoin at h
  rcases hf : right.filter (fun r => keyR r == keyL l) with _ | ⟨b0, bs⟩
  · rw [hf] at h
    simp only [List.isEmpty_nil, if_true, List.mem_singleton] at h
    subst h
    refine ⟨rfl, ?_, ?_⟩
    · intro _ b hb
      exact (List.filter_eq_nil_iff.mp hf) b hb
    · intro b hb; cases hb
  · rw [hf] at h
    simp only [List.isEmpty_cons, if_false, Bool.false_eq_true] at h
    rcases List.mem_map.mp h with ⟨r, hr, hp⟩
    subst hp
    have hr2 : r ∈ right.filter (fun r => keyR r == keyL l) := hf ▸ hr
    have hr3 := List.mem_filter.mp hr2
    refine ⟨rfl, ?_, ?_⟩
    · intro hnone; cases hnone
    · intro b hb
      cases hb
      exact hr3

theorem mem_selectFinal {α : Type} {key rid : α → Nat} {rows : List α} {s : α}
    (h : s ∈ selectFinal key rid rows) :
    s ∈ rows ∧ ∀ t ∈ rows, key t = key s → rid t ≤ rid s := by
  unfold selectFinal at h
  rcases List.mem_filterMap.mp h with ⟨k, _, hfind⟩
  have hmemgrp := List.mem_of_find?_eq_some hfind
  have hpred0 := List.find?_some hfind
  have hs := List.mem_filter.mp hmemgrp
  refine ⟨hs.1, ?_⟩
  intro t ht hkey
  have hkeq : key s = k := by simpa using hs.2
  have htgrp : t ∈ rows.filter (fun r2 => key r2 == k) :=
    List.mem_filter.mpr ⟨ht, by simp [hkey, hkeq]⟩
  have hmax := maxKey_ge rid _ t htgrp
  have hse : rid s = maxKey rid (rows.filter (fun r2 => key r2 == k)) := by
    simpa using hpred0
  omega

theorem standLe_trans {p1 w1 p2 w2 p3 w3 : Option Int}
    (h1 : standLe p1 w1 p2 w2 = true) (h2 : standLe p2 w2 p3 w3 = true) :
    standLe p1 w1 p3 w3 = true := by
  cases p1 <;> cases p2 <;> cases p3 <;> cases w1 <;> cases w2 <;> cases w3 <;>
      simp_all [standLe, optDescLt, optDescLe] <;> omega

theorem standLe_total (p1 w1 p2 w2 : Option Int) :
    (standLe p1 w1 p2 w2 || standLe p2 w2 p1 w1) = true := by
  cases p1 <;> cases p2 <;> cases w1 <;> cases w2 <;>
      simp_all [standLe, optDescLt, optDescLe] <;> omega

theorem standLe_wins_of_eq_points {p1 w1 p2 w2 : Option Int}
    (h : standLe p1 w1 p2 w2 = true) (hp : p1 = p2) {wa wb : Int}
    (h1 : w1 = some wa) (h2 : w2 = some wb) : wb ≤ wa := by
  subst hp h1 h2
  cases p1 <;> simp_all [standLe, optDescLt, optDescLe]

theorem standLe_points_desc {p1 w1 p2 w2 : Option Int}
    (h : standLe p1 w1 p2 w2 = true) :
    (∀ pa pb : Int, p1 = some pa → p2 = some pb → pb ≤ pa) ∧
    (p1 = none → p2 = none) := by
  cases p1 <;> cases p2 <;> simp_all [standLe, optDescLt, optDescLe] <;> omega

theorem sum_map_add_nat {α : Type} (f g : α → Nat) (l : List α) :
    (l.map (fun x => f x + g x)).sum = (l.map f).sum + (l.map g).sum := by
  induction l with
  | nil => simp
  | cons a as ih => simp [ih]; omega

theorem sum_indicator_not_mem {α : Type} [DecidableEq α] (x : α)
    (keys : List α) (hx : x ∉ keys) :
    (keys.map (fun t => if x = t then (1 : Nat) else 0)).sum = 0 := by
  induction keys with
  | nil => simp
  | cons k ks ih =>
    have h1 : ¬(x = k) := fun he => hx (he ▸ List.mem_cons_self k ks)
    have h2 : x ∉ ks := fun hm => hx (List.mem_cons_of_mem k hm)
    simp [ih h2, h1]

theorem sum_indicator_mem {α : Type} [DecidableEq α] (x : α) (keys : List α)
    (hn : keys.Nodup) (hx : x ∈ keys) :
    (keys.map (fun t => if x = t then (1 : Nat) else 0)).sum = 1 := by
  induction keys with
  | nil => cases hx
  | cons k ks ih =>
    rcases List.mem_cons.mp hx with h | h
    · subst h
      have hnm : x ∉ ks := (List.nodup_cons.mp hn).1
      simp [sum_indicator_not_mem x ks hnm]
    · have hkx : ¬(x = k) := fun he => (List.nodup_cons.mp hn).1 (he ▸ h)
      simp [hkx, ih (List.nodup_cons.mp hn).2 h]

theorem sum_counts_eq_length {α : Type} [DecidableEq α] :
    ∀ (texts keys : List α), keys.Nodup → (∀ t ∈ texts, t ∈ keys) →
      (keys.map (fun t => texts.count t)).sum = texts.length := by
  intro texts
  induction texts with
  | nil => intro keys _ _; simp
  | cons x xs ih =>
    intro keys hn hmem
    have h1 : ∀ t ∈ xs, t ∈ keys := fun t ht => hmem t (List.mem_cons_of_mem _ ht)
    have hx : x ∈ keys := hmem x (List.mem_cons_self _ _)
    have hc : (keys.map (fun t => (x :: xs).count t)).sum
        = (keys.map (fun t => xs.count t + if x = t then 1 else 0)).sum := by
      congr 1
      apply List.map_congr_left
      intro t _
      simp [List.count_cons]
    rw [hc, sum_map_add_nat, ih keys hn h1, sum_indicator_mem x keys hn hx]
    simp

theorem insertSorted_perm {α : Type} (le : α → α → Bool) (x : α) :
    ∀ l : List α, (insertSorted le x l).Perm (x :: l) := by
  intro l
  induction l with
  | nil => exact List.Perm.refl _
  | cons y ys ih =>
    unfold insertSorted
    split
    · exact List.Perm.refl _
    · exact (List.Perm.cons y ih).trans (List.Perm.swap x y ys)

theorem sortBy_perm {α : Type} (le : α → α → Bool) :
    ∀ l : List α, (sortBy le l).Perm l := by
  intro l
  induction l with
  | nil => exact List.Perm.refl _
  | cons x xs ih =>
    exact (insertSorted_perm le x (sortBy le xs)).trans (List.Perm.cons x ih)

theorem mem_insertSorted {α : Type} {le : α → α → Bool} {x a : α}
    {l : List α} : a ∈ insertSorted le x l ↔ a = x ∨ a ∈ l := by
  induction l with
  | nil => simp [insertSorted]
  | cons y ys ih =>
    unfold insertSorted
    split
    · simp [List.mem_cons]
    · simp only [List.mem_cons, ih]
      tauto

theorem pairwise_insertSorted {α : Type} {le : α → α → Bool}
    (trans : ∀ a b c, le a b = true → le b c = true → le a c = true)
    (total : ∀ a b, (le a b || le b a) = true) {x : α} {l : List α}
    (h : l.Pairwise (fun a b => le a b = true)) :
    (insertSorted le x l).Pairwise (fun a b => le a b = true) := by
  induction l with
  | nil => simp [insertSorted]
  | cons y ys ih =>
    unfold insertSorted
    rcases List.pairwise_cons.mp h with ⟨hy, hys⟩
    split
    · rename_i hxy
      refine List.pairwise_cons.mpr ⟨?_, h⟩
      intro b hb
      rcases List.mem_cons.mp hb with hbx | hbys
      · exact hbx ▸ hxy
      · exact trans x y b hxy (hy b hbys)
    · rename_i hxy
      have hyx : le y x = true := by
        have ht := total x y
        rw [Bool.or_eq_true] at ht
        rcases ht with h1 | h1
        · exact absurd h1 hxy
        · exact h1
      refine List.pairwise_cons.mpr ⟨?_, ih hys⟩
      intro b hb
      rcases mem_insertSorted.mp hb with hbx | hbys
      · exact hbx ▸ hyx
      · exact hy b hbys

theorem pairwise_sortBy {α : Type} {le : α → α → Bool}
    (trans : ∀ a b c, le a b = true → le b c = true → le a c = true)
    (total : ∀ a b, (le a b || le b a) = true) (l : List α) :
    (sortBy le l).Pairwise (fun a b => le a b = true) := by
  induction l with
  | nil => exact List.Pairwise.nil
  | cons x xs ih => exact pairwise_insertSorted trans total ih

theorem mem_sortBy {α : Type} {le : α → α → Bool} {a : α} {l : List α} :
    a ∈ sortBy le l ↔ a ∈ l :=
  (sortBy_perm le l).mem_iff

/-! ## Helper lemmas: empty-key behaviour and loading -/

theorem race_results_of_no_match {m : F1DataModel} {rid : Nat}
    (h : ∀ r ∈ m.results, r.raceId ≠ rid) :
    get_race_results m (some rid) = [] := by
  have hfil : m.results.filter (fun r => idMatches r.raceId (some rid)) = [] :=
    List.filter_eq_nil_iff.mpr (fun r hr => by
      simp only [idMatches_some_iff]
      exact h r hr)
  simp [get_race_results, hfil]

theorem race_results_none (m : F1DataModel) : get_race_results m none = [] := by
  have hfil : m.results.filter (fun r => idMatches r.raceId none) = [] :=
    List.filter_eq_nil_iff.mpr (fun r hr => by simp [idMatches_none])
  simp [get_race_results, hfil]

theorem load_all_append_error (env : String → Option (List (List String)))
    (name : String) (post : List String) :
    ∀ pre : List String, (∀ p ∈ pre, (env p).isSome) → env name = none →
      load_all env (pre ++ name :: post) =
        Except.error ("Arquivo nao encontrado: " ++ name) := by
  intro pre
  induction pre with
  | nil =>
    intro _ hnone
    simp [load_all, load_csv, hnone]
  | cons p ps ih =>
    intro hpre hnone
    have hp : (env p).isSome := hpre p (List.mem_cons_self _ _)
    rcases Option.isSome_iff_exists.mp hp with ⟨t, ht⟩
    have ihh := ih (fun q hq => hpre q (List.mem_cons_of_mem _ hq)) hnone
    simp [load_all, load_csv, ht, ihh]

theorem load_all_ok_isSome (env : String → Option (List (List String))) :
    ∀ (l : List String) (ts : List (String × RawTable)),
      load_all env l = Except.ok ts → ∀ n ∈ l, (env n).isSome := by
  intro l
  induction l with
  | nil => intro ts _ n hn; cases hn
  | cons a as ih =>
    intro ts hok n hn
    rcases he : env a with _ | t
    · exfalso
      simp [load_all, load_csv, he] at hok
    · rcases List.mem_cons.mp hn with h | h
      · subst h; simp [he]
      · rcases hrest : load_all env as with e | ts2
        · exfalso
          simp [load_all, load_csv, he, hrest] at hok
        · exact ih ts2 hrest n h

/-! ## Claim theorems -/

/-- C9: for every year, `get_races_for_year` returns exactly the races of
that year with columns raceId, name, round, ordered by round ascending; for
a year with no races, or a null year argument, it returns an empty result. -/
theorem races_for_year_spec :
    ∀ (m : F1DataModel),
      (∀ y : Option Int,
        (get_races_for_year m y).Perm
          ((m.races.filter (fun r => yearMatches r.year y)).map
            (fun r => { raceId := r.raceId, name := r.name,
                        round := r.round })) ∧
        (get_races_for_year m y).Pairwise (fun a b => a.round ≤ b.round)) ∧
      (∀ y : Int, (∀ r ∈ m.races, r.year ≠ some y) →
        get_races_for_year m (some y) = []) ∧
      get_races_for_year m none = [] := by
  intro m
  refine ⟨fun y => ⟨?_, ?_⟩, ?_, ?_⟩
  · unfold get_races_for_year
    exact List.Perm.map _ (sortBy_perm _ _)
  · unfold get_races_for_year
    refine List.Pairwise.map _ (fun a b hab => ?_)
      (pairwise_sortBy ?_ ?_
        (m.races.filter (fun r => yearMatches r.year y)))
    · simpa using hab
    · intro a b c h1 h2
      simp only [decide_eq_true_eq] at h1 h2 ⊢
      omega
    · intro a b
      simp only [Bool.or_eq_true, decide_eq_true_eq]
      exact Int.le_total _ _
  · intro y hy
    have hfil : m.races.filter (fun r => yearMatches r.year (some y)) = [] :=
      List.filter_eq_nil_iff.mpr (fun r hr => by
        simp only [yearMatches_some_iff]
        exact hy r hr)
    simp [get_races_for_year, hfil, sortBy]
  · have hfil : m.races.filter (fun r => yearMatches r.year none) = [] :=
      List.filter_eq_nil_iff.mpr (fun r hr => by simp [yearMatches_none])
    simp [get_races_for_year, hfil, sortBy]

/-- C9 witness: on the concrete model, an unknown year and a null year both
give the empty result. -/
theorem races_for_year_spec_witness :
    get_races_for_year mEx (some 1999) = [] ∧
    get_races_for_year mEx none = [] :=
  ⟨(races_for_year_spec mEx).2.1 1999 (by decide),
   (races_for_year_spec mEx).2.2⟩

/-- C6: every row returned by `get_circuit_locations` has present latitude
and longitude; no circuit lacking a coordinate appears, even one that
hosted races. -/
theorem circuit_locations_coords_present :
    ∀ (m : F1DataModel), ∀ row ∈ get_circuit_locations m,
      row.lat.isSome = true ∧ row.lng.isSome = true := by
  intro m row hrow
  simp only [get_circuit_locations] at hrow
  split at hrow
  · exact absurd hrow (List.not_mem_nil _)
  · have h := (List.mem_filter.mp hrow).2
    simpa [Bool.and_eq_true] using h

/-- C6 witness: the concrete model returns the row of circuit 1 (which
hosted race 10) and its coordinates are present; circuit 2 (which hosted
race 12 but lacks a latitude) is absent. -/
theorem circuit_locations_coords_present_witness :
    rowCirc1 ∈ get_circuit_locations mEx ∧
    (rowCirc1.lat.isSome = true ∧ rowCirc1.lng.isSome = true) ∧
    get_circuit_locations mEx = [rowCirc1] :=
  have h : rowCirc1 ∈ get_circuit_locations mEx := by decide
  ⟨h, circuit_locations_coords_present mEx rowCirc1 h, by decide⟩

/-- C3: every query of the data layer, given a key (year, raceId, driverId)
matching no row or null, returns an empty tabular result (the embedding is
total, so no exception can be raised). -/
theorem empty_key_queries_empty :
    ∀ (m : F1DataModel),
      (∀ y : Int, (∀ r ∈ m.races, r.year ≠ some y) →
        get_races_for_year m (some y) = [] ∧
        get_driver_championship_standings m (some y) = [] ∧
        get_constructor_championship_standings m (some y) = []) ∧
      (get_races_for_year m none = [] ∧
        get_driver_championship_standings m none = [] ∧
        get_constructor_championship_standings m none = []) ∧
      (∀ rid : Nat, (∀ r ∈ m.results, r.raceId ≠ rid) →
        get_race_results m (some rid) = [] ∧
        get_status_counts_for_race m (some rid) = []) ∧
      (get_race_results m none = [] ∧
        get_status_counts_for_race m none = []) ∧
      (∀ rid did : Nat,
        (∀ l ∈ m.lap_times, ¬(l.raceId = rid ∧ l.driverId = did)) →
        get_lap_times_for_driver m (some rid) (some did) = []) ∧
      (∀ x : Option Nat, get_lap_times_for_driver m none x = [] ∧
        get_lap_times_for_driver m x none = []) ∧
      (∀ rid : Nat, (∀ p ∈ m.pit_stops, p.raceId ≠ rid) →
        get_pitstops_for_race m (some rid) = []) ∧
      get_pitstops_for_race m none = [] ∧
      (∀ rid : Nat, (∀ r ∈ m.sprint_results, r.raceId ≠ rid) →
        get_sprint_results_for_race m (some rid) = []) ∧
      get_sprint_results_for_race m none = [] := by
  intro m
  refine ⟨?_, ⟨?_, ?_, ?_⟩, ?_, ⟨?_, ?_⟩, ?_, ?_, ?_, ?_, ?_, ?_⟩
  · intro y hy
    have hfil : seasonRaces m (some y) = [] := by
      unfold seasonRaces
      exact List.filter_eq_nil_iff.mpr (fun r hr => by
        simp only [yearMatches_some_iff]
        exact hy r hr)
    have hfil2 : m.races.filter (fun r => yearMatches r.year (some y)) = [] :=
      hfil
    refine ⟨?_, ?_, ?_⟩
    · simp [get_races_for_year, hfil2, sortBy]
    · simp [get_driver_championship_standings, hfil]
    · simp [get_constructor_championship_standings, hfil]
  · have hfil : m.races.filter (fun r => yearMatches r.year none) = [] :=
      List.filter_eq_nil_iff.mpr (fun r hr => by simp [yearMatches_none])
    simp [get_races_for_year, hfil, sortBy]
  · have hfil : seasonRaces m none = [] := by
      unfold seasonRaces
      exact List.filter_eq_nil_iff.mpr (fun r hr => by simp [yearMatches_none])
    simp [get_driver_championship_standings, hfil]
  · have hfil : seasonRaces m none = [] := by
      unfold seasonRaces
      exact List.filter_eq_nil_iff.mpr (fun r hr => by simp [yearMatches_none])
    simp [get_constructor_championship_standings, hfil]
  · intro rid hy
    have h1 := race_results_of_no_match hy
    exact ⟨h1, by simp [get_status_counts_for_race, h1]⟩
  · exact race_results_none m
  · simp [get_status_counts_for_race, race_results_none m]
  · intro rid did h
    have hfil : m.lap_times.filter
        (fun l => idMatches l.raceId (some rid) &&
          idMatches l.driverId (some did)) = [] :=
      List.filter_eq_nil_iff.mpr (fun l hl => by
        simp only [Bool.and_eq_true, idMatches_some_iff]
        intro hc
        exact h l hl hc)
    simp [get_lap_times_for_driver, hfil]
  · intro x
    constructor
    · have hfil : m.lap_times.filter
          (fun l => idMatches l.raceId none && idMatches l.driverId x) = [] :=
        List.filter_eq_nil_iff.mpr (fun l hl => by simp [idMatches_none])
      simp [get_lap_times_for_driver, hfil]
    · have hfil : m.lap_times.filter
          (fun l => idMatches l.raceId x && idMatches l.driverId none) = [] :=
        List.filter_eq_nil_iff.mpr (fun l hl => by simp [idMatches_none])
      simp [get_lap_times_for_driver, hfil]
  · intro rid h
    have hfil : m.pit_stops.filter (fun p => idMatches p.raceId (some rid)) = [] :=
      List.filter_eq_nil_iff.mpr (fun p hp => by
        simp only [idMatches_some_iff]
        exact h p hp)
    simp [get_pitstops_for_race, hfil]
  · have hfil : m.pit_stops.filter (fun p => idMatches p.raceId none) = [] :=
      List.filter_eq_nil_iff.mpr (fun p hp => by simp [idMatches_none])
    simp [get_pitstops_for_race, hfil]
  · intro rid h
    have hfil : m.sprint_results.filter
        (fun r => idMatches r.raceId (some rid)) = [] :=
      List.filter_eq_nil_iff.mpr (fun r hr => by
        simp only [idMatches_some_iff]
        exact h r hr)
    simp [get_sprint_results_for_race, hfil]
  · have hfil : m.sprint_results.filter (fun r => idMatches r.raceId none) = [] :=
      List.filter_eq_nil_iff.mpr (fun r hr => by simp [idMatches_none])
    simp [get_sprint_results_for_race, hfil]

/-- C3 witness: unknown and null keys on the concrete model give empty
results across the query operations. -/
theorem empty_key_queries_empty_witness :
    get_races_for_year mEx (some 1888) = [] ∧
    get_driver_championship_standings mEx (some 1888) = [] ∧
    get_constructor_championship_standings mEx (some 1888) = [] ∧
    get_race_results mEx (some 555) = [] ∧
    get_status_counts_for_race mEx (some 555) = [] ∧
    get_race_results mEx none = [] ∧
    get_lap_times_for_driver mEx (some 12) (some 1234) = [] ∧
    get_lap_times_for_driver mEx none (some 44) = [] ∧
    get_pitstops_for_race mEx (some 555) = [] ∧
    get_sprint_results_for_race mEx (some 555) = [] :=
  have h := empty_key_queries_empty mEx
  have h1 := h.1 1888 (by decide)
  have h3 := h.2.2.1 555 (by decide)
  ⟨h1.1, h1.2.1, h1.2.2, h3.1, h3.2, h.2.2.2.1.1,
   h.2.2.2.2.1 12 1234 (by decide), (h.2.2.2.2.2.1 (some 44)).1,
   h.2.2.2.2.2.2.1 555 (by decide), h.2.2.2.2.2.2.2.2.1 555 (by decide)⟩

/-- C7: initialization fails fast on the first missing table file — loading
up to a missing file yields exactly that file's file-not-found error, and no
model value is produced when any required file is absent. -/
theorem post_init_fail_fast :
    (∀ (env : String → Option (List (List String))) (pre : List String)
        (name : String) (post : List String),
      requiredFiles = pre ++ name :: post →
      (∀ p ∈ pre, (env p).isSome) → env name = none →
      post_init env = Except.error ("Arquivo nao encontrado: " ++ name)) ∧
    (∀ env, (∃ n ∈ requiredFiles, env n = none) →
      ∀ ts, post_init env ≠ Except.ok ts) := by
  constructor
  · intro env pre name post heq hpre hnone
    unfold post_init
    rw [heq]
    exact load_all_append_error env name post pre hpre hnone
  · rintro env ⟨n, hn, hnone⟩ ts hok
    unfold post_init at hok
    have := load_all_ok_isSome env requiredFiles ts hok n hn
    rw [hnone] at this
    cases this

/-- C7 witness: with no files present, initialization fails with the error
for the first required file, `races.csv`, and yields no model. -/
theorem post_init_fail_fast_witness :
    post_init envEmpty =
      Except.error ("Arquivo nao encontrado: " ++ "races.csv") ∧
    ∀ ts, post_init envEmpty ≠ Except.ok ts :=
  ⟨post_init_fail_fast.1 envEmpty [] "races.csv"
      ["results.csv", "drivers.csv", "driver_standings.csv",
       "constructors.csv", "constructor_standings.csv",
       "constructor_results.csv", "lap_times.csv", "pit_stops.csv",
       "qualifying.csv", "seasons.csv", "status.csv", "sprint_results.csv",
       "circuits.csv"]
      rfl (fun p hp => absurd hp (List.not_mem_nil p)) rfl,
   post_init_fail_fast.2 envEmpty ⟨"races.csv", by decide, rfl⟩⟩

/-- C8: each query operation, in state-passing form, leaves the loaded
tables unchanged, and running it twice with identical inputs yields
identical results. -/
theorem queries_pure_idempotent :
    ∀ (m : F1DataModel) (y : Option Int) (rid did : Option Nat),
      ((get_races_for_yearM m y).2 = m ∧
        (get_races_for_yearM (get_races_for_yearM m y).2 y).1 =
          (get_races_for_yearM m y).1) ∧
      ((get_driver_championship_standingsM m y).2 = m ∧
        (get_driver_championship_standingsM
            (get_driver_championship_standingsM m y).2 y).1 =
          (get_driver_championship_standingsM m y).1) ∧
      ((get_constructor_championship_standingsM m y).2 = m ∧
        (get_constructor_championship_standingsM
            (get_constructor_championship_standingsM m y).2 y).1 =
          (get_constructor_championship_standingsM m y).1) ∧
      ((get_race_resultsM m rid).2 = m ∧
        (get_race_resultsM (get_race_resultsM m rid).2 rid).1 =
          (get_race_resultsM m rid).1) ∧
      ((get_lap_times_for_driverM m rid did).2 = m ∧
        (get_lap_times_for_driverM (get_lap_times_for_driverM m rid did).2
            rid did).1 = (get_lap_times_for_driverM m rid did).1) ∧
      ((get_pitstops_for_raceM m rid).2 = m ∧
        (get_pitstops_for_raceM (get_pitstops_for_raceM m rid).2 rid).1 =
          (get_pitstops_for_raceM m rid).1) ∧
      ((get_status_counts_for_raceM m rid).2 = m ∧
        (get_status_counts_for_raceM (get_status_counts_for_raceM m rid).2
            rid).1 = (get_status_counts_for_raceM m rid).1) ∧
      ((get_sprint_results_for_raceM m rid).2 = m ∧
        (get_sprint_results_for_raceM (get_sprint_results_for_raceM m rid).2
            rid).1 = (get_sprint_results_for_raceM m rid).1) ∧
      ((get_yearsM m).2 = m ∧
        (get_yearsM (get_yearsM m).2).1 = (get_yearsM m).1) ∧
      ((get_races_per_seasonM m).2 = m ∧
        (get_races_per_seasonM (get_races_per_seasonM m).2).1 =
          (get_races_per_seasonM m).1) ∧
      ((get_race_counts_by_countryM m y).2 = m ∧
        (get_race_counts_by_countryM (get_race_counts_by_countryM m y).2
            y).1 = (get_race_counts_by_countryM m y).1) ∧
      ((get_circuit_locationsM m).2 = m ∧
        (get_circuit_locationsM (get_circuit_locationsM m).2).1 =
          (get_circuit_locationsM m).1) :=
  fun _ _ _ _ =>
    ⟨⟨rfl, rfl⟩, ⟨rfl, rfl⟩, ⟨rfl, rfl⟩, ⟨rfl, rfl⟩, ⟨rfl, rfl⟩, ⟨rfl, rfl⟩,
     ⟨rfl, rfl⟩, ⟨rfl, rfl⟩, ⟨rfl, rfl⟩, ⟨rfl, rfl⟩, ⟨rfl, rfl⟩, ⟨rfl, rfl⟩⟩

/-- C2: the standings returned for a year are sorted by points descending
(absent points sinking to the end), with ties in points broken by wins
descending: of two returned entities with equal points, the one with more
wins appears earlier. -/
theorem standings_sorted_by_points_then_wins :
    ∀ (m : F1DataModel) (y : Option Int),
      (get_driver_championship_standings m y).Pairwise
        (fun a b =>
          (∀ pa pb : Int, a.points = some pa → b.points = some pb →
            pb ≤ pa) ∧
          (a.points = none → b.points = none) ∧
          (a.points = b.points → ∀ wa wb : Int,
            a.wins = some wa → b.wins = some wb → wb ≤ wa)) ∧
      (get_constructor_championship_standings m y).Pairwise
        (fun a b =>
          (∀ pa pb : Int, a.points = some pa → b.points = some pb →
            pb ≤ pa) ∧
          (a.points = none → b.points = none) ∧
          (a.points = b.points → ∀ wa wb : Int,
            a.wins = some wa → b.wins = some wb → wb ≤ wa)) := by
  intro m y
  constructor
  · simp only [get_driver_championship_standings]
    split
    · exact List.Pairwise.nil
    · split
      · exact List.Pairwise.nil
      · refine List.Pairwise.imp ?_ (pairwise_sortBy ?_ ?_ _)
        · intro a b hab
          exact ⟨(standLe_points_desc hab).1, (standLe_points_desc hab).2,
            fun hp wa wb hwa hwb =>
              standLe_wins_of_eq_points hab hp hwa hwb⟩
        · intro a b c h1 h2
          exact standLe_trans h1 h2
        · intro a b
          exact standLe_total _ _ _ _
  · simp only [get_constructor_championship_standings]
    split
    · exact List.Pairwise.nil
    · split
      · exact List.Pairwise.nil
      · refine List.Pairwise.imp ?_ (pairwise_sortBy ?_ ?_ _)
        · intro a b hab
          exact ⟨(standLe_points_desc hab).1, (standLe_points_desc hab).2,
            fun hp wa wb hwa hwb =>
              standLe_wins_of_eq_points hab hp hwa hwb⟩
        · intro a b c h1 h2
          exact standLe_trans h1 h2
        · intro a b
          exact standLe_total _ _ _ _

/-- C2 witness: on the concrete model the 75-point rows precede the
40-point row (points descending, non-vacuously) and the tie at 75 points is
broken by wins — driver 44 (2 wins) precedes driver 7 (1 win); the order
the theorem guarantees holds of the computed list. -/
theorem standings_sorted_by_points_then_wins_witness :
    (get_driver_championship_standings mEx (some 2021)).Pairwise
      (fun a b =>
        (∀ pa pb : Int, a.points = some pa → b.points = some pb →
          pb ≤ pa) ∧
        (a.points = none → b.points = none) ∧
        (a.points = b.points → ∀ wa wb : Int,
          a.wins = some wa → b.wins = some wb → wb ≤ wa)) ∧
    (get_driver_championship_standings mEx (some 2021)).map
      (fun r => (r.driverId, r.points, r.wins)) =
      [(44, some 75, some 2), (7, some 75, some 1), (99, some 40, some 0)] :=
  ⟨(standings_sorted_by_points_then_wins mEx (some 2021)).1, by decide⟩

/-- C1: every standings row a season query returns carries the values of a
single snapshot row of that season whose raceId is maximal among the
entity's snapshot rows in that season — not a points sum and not a
max-points row. -/
theorem standings_final_snapshot :
    ∀ (m : F1DataModel) (y : Option Int),
      (∀ row ∈ get_driver_championship_standings m y,
        ∃ s ∈ seasonDriverStandings m y,
          s.driverId = row.driverId ∧ s.points = row.points ∧
          s.wins = row.wins ∧ s.position = row.position ∧
          ∀ t ∈ seasonDriverStandings m y, t.driverId = row.driverId →
            t.raceId ≤ s.raceId) ∧
      (∀ row ∈ get_constructor_championship_standings m y,
        ∃ s ∈ seasonConstructorStandings m y,
          s.constructorId = row.constructorId ∧ s.points = row.points ∧
          s.wins = row.wins ∧ s.position = row.position ∧
          ∀ t ∈ seasonConstructorStandings m y,
            t.constructorId = row.constructorId → t.raceId ≤ s.raceId) := by
  intro m y
  constructor
  · intro row hrow
    simp only [get_driver_championship_standings] at hrow
    split at hrow
    · exact absurd hrow (List.not_mem_nil _)
    · split at hrow
      · exact absurd hrow (List.not_mem_nil _)
      · rw [mem_sortBy] at hrow
        rcases List.mem_map.mp hrow with ⟨p, hp, hmk⟩
        rcases List.mem_flatMap.mp hp with ⟨s, hsel, hjoin⟩
        have hp1 : p.1 = s := (mem_leftJoin hjoin).1
        have hsel2 := mem_selectFinal hsel
        subst hmk
        exact ⟨s, hsel2.1, by simp [hp1], by simp [hp1], by simp [hp1],
          by simp [hp1], fun t ht hkey => hsel2.2 t ht (by simpa [hp1] using hkey)⟩
  · intro row hrow
    simp only [get_constructor_championship_standings] at hrow
    split at hrow
    · exact absurd hrow (List.not_mem_nil _)
    · split at hrow
      · exact absurd hrow (List.not_mem_nil _)
      · rw [mem_sortBy] at hrow
        rcases List.mem_map.mp hrow with ⟨p, hp, hmk⟩
        rcases List.mem_flatMap.mp hp with ⟨s, hsel, hjoin⟩
        have hp1 : p.1 = s := (mem_leftJoin hjoin).1
        have hsel2 := mem_selectFinal hsel
        subst hmk
        exact ⟨s, hsel2.1, by simp [hp1], by simp [hp1], by simp [hp1],
          by simp [hp1], fun t ht hkey => hsel2.2 t ht (by simpa [hp1] using hkey)⟩

/-- C1 witness: driver 44 has snapshots at raceId 10 (50 points) and
raceId 12 (75 points) inside season 2021; the returned row reports 75
points — the max-raceId snapshot, not the 125-point sum and not selected by
points — and the theorem produces the dominating snapshot for it. -/
theorem standings_final_snapshot_witness :
    rowHAM ∈ get_driver_championship_standings mEx (some 2021) ∧
    rowHAM.points = some 75 ∧
    (∃ s ∈ seasonDriverStandings mEx (some 2021),
      s.driverId = rowHAM.driverId ∧ s.points = rowHAM.points ∧
      s.wins = rowHAM.wins ∧ s.position = rowHAM.position ∧
      ∀ t ∈ seasonDriverStandings mEx (some 2021),
        t.driverId = rowHAM.driverId → t.raceId ≤ s.raceId) :=
  have hmem : rowHAM ∈ get_driver_championship_standings mEx (some 2021) := by
    decide
  ⟨hmem, by decide,
   (standings_final_snapshot mEx (some 2021)).1 rowHAM hmem⟩

/-- C4: the driver label is a pure function of (code, forename, surname,
driverId) with priority code, then initial-plus-surname, then the raw
identifier, and every row of every driver-labelling view carries the label
computed by that function from its own merged columns. -/
theorem driver_label_spec :
    (∀ (c : String) (f s : Option String) (i : Nat),
      driverLabel (some c) f s i = c) ∧
    (∀ (f s : String) (i : Nat),
      driverLabel none (some f) (some s) i = f.take 1 ++ ". " ++ s) ∧
    (∀ (s : Option String) (i : Nat), driverLabel none none s i = toString i) ∧
    (∀ (f : Option String) (i : Nat), driverLabel none f none i = toString i) ∧
    (∀ (m : F1DataModel) (y : Option Int),
      ∀ row ∈ get_driver_championship_standings m y,
        row.driverLabel =
          driverLabel row.code row.forename row.surname row.driverId) ∧
    (∀ (m : F1DataModel) (r : Option Nat), ∀ row ∈ get_race_results m r,
        row.driverLabel =
          driverLabel row.code row.forename row.surname row.driverId) ∧
    (∀ (m : F1DataModel) (r : Option Nat),
      ∀ row ∈ get_sprint_results_for_race m r,
        row.driverLabel =
          driverLabel row.code row.forename row.surname row.driverId) := by
  refine ⟨fun c f s i => rfl, fun f s i => rfl, fun s i => rfl,
    fun f i => by cases f <;> rfl, ?_, ?_, ?_⟩
  · intro m y row hrow
    simp only [get_driver_championship_standings] at hrow
    split at hrow
    · exact absurd hrow (List.not_mem_nil _)
    · split at hrow
      · exact absurd hrow (List.not_mem_nil _)
      · rw [mem_sortBy] at hrow
        rcases List.mem_map.mp hrow with ⟨p, _, hmk⟩
        subst hmk
        rfl
  · intro m r row hrow
    simp only [get_race_results] at hrow
    split at hrow
    · exact absurd hrow (List.not_mem_nil _)
    · split at hrow
      · rcases List.mem_map.mp hrow with ⟨q, _, hmk⟩
        subst hmk
        rfl
      · rcases List.mem_flatMap.mp hrow with ⟨q, _, hq2⟩
        rcases List.mem_map.mp hq2 with ⟨pr, _, hmk⟩
        subst hmk
        rfl
  · intro m r row hrow
    simp only [get_sprint_results_for_race] at hrow
    split at hrow
    · exact absurd hrow (List.not_mem_nil _)
    · rw [mem_sortBy] at hrow
      rcases List.mem_map.mp hrow with ⟨p, _, hmk⟩
      subst hmk
      rfl

/-- C4 witness: the label rule evaluated on the spec's examples, and a
concrete race-result row labelled by the rule. -/
theorem driver_label_spec_witness :
    driverLabel (some "HAM") (some "Lewis") (some "Hamilton") 44 = "HAM" ∧
    driverLabel none (some "Lewis") (some "Hamilton") 44 = "L. Hamilton" ∧
    driverLabel none none none 44 = "44" ∧
    (rowRes44 ∈ get_race_results mEx (some 12) ∧
      rowRes44.driverLabel =
        driverLabel rowRes44.code rowRes44.forename rowRes44.surname
          rowRes44.driverId) :=
  have hm : rowRes44 ∈ get_race_results mEx (some 12) := by decide
  ⟨driver_label_spec.1 "HAM" (some "Lewis") (some "Hamilton") 44,
   (driver_label_spec.2.1 "Lewis" "Hamilton" 44).trans (by decide),
   driver_label_spec.2.2.1 none 44,
   hm, driver_label_spec.2.2.2.2.2.1 mEx (some 12) rowRes44 hm⟩

/-- C5: in `get_race_results` the status text comes from the left join with
the status table on `statusId`: it is present exactly when the `statusId`
matches a status row (and then carries that row's text), and when the
status table is unavailable the displayed status value falls back to the
raw status identifier for every row. -/
theorem race_results_status_join :
    ∀ (m : F1DataModel) (rid : Option Nat), ∀ row ∈ get_race_results m rid,
      (row.statusText.isSome = true ↔
        ∃ st ∈ m.status, st.statusId = row.statusId) ∧
      (∀ t, row.statusText = some t →
        ∃ st ∈ m.status, st.statusId = row.statusId ∧ st.status = t) ∧
      (m.status = [] → row.statusText = none ∧
        resultStatusValue m row = row.statusId.map (fun n => toString n)) := by
  intro m rid row hrow
  simp only [get_race_results] at hrow
  split at hrow
  · exact absurd hrow (List.not_mem_nil _)
  · split at hrow
    · rename_i hse
      have hstat : m.status = [] := by simpa using hse
      rcases List.mem_map.mp hrow with ⟨q, _, hmk⟩
      subst hmk
      refine ⟨?_, ?_, ?_⟩
      · constructor
        · intro h
          simp [mkResultOut] at h
        · rintro ⟨st, hst, _⟩
          rw [hstat] at hst
          cases hst
      · intro t ht
        simp [mkResultOut] at ht
      · intro _
        exact ⟨rfl, by simp [resultStatusValue, hasStatusTextCol, hstat]⟩
    · rename_i hse
      rcases List.mem_flatMap.mp hrow with ⟨q, _, hq2⟩
      rcases List.mem_map.mp hq2 with ⟨pr, hpr, hmk⟩
      have hj := mem_leftJoin hpr
      have hpr1 : pr.1 = q := hj.1
      subst hmk
      rcases hopt : pr.2 with _ | st
      · simp only [hopt, Option.map_none']
        have hnomatch := hj.2.1 hopt
        refine ⟨?_, ?_, ?_⟩
        · constructor
          · intro h
            simp [mkResultOut] at h
          · rintro ⟨st, hstmem, hsteq⟩
            simp only [mkResultOut] at hsteq
            rw [hpr1] at hsteq
            exact absurd (by simp [hsteq]) (hnomatch st hstmem)
        · intro t ht
          simp [mkResultOut] at ht
        · intro h0
          exact absurd (by simp [h0]) hse
      · simp only [hopt, Option.map_some']
        have hmatch := hj.2.2 st hopt
        have hsid : st.statusId = q.statusId := by simpa using hmatch.2
        refine ⟨?_, ?_, ?_⟩
        · constructor
          · intro _
            exact ⟨st, hmatch.1, by simp [mkResultOut, hpr1, hsid]⟩
          · intro _
            rfl
        · intro t ht
          simp only [mkResultOut, Option.some.injEq] at ht
          exact ⟨st, hmatch.1, by simp [mkResultOut, hpr1, hsid], ht⟩
        · intro h0
          exact absurd (by simp [h0]) hse

/-- C5 witness: in the concrete model, driver 44's row (statusId 1, matched)
carries text "Finished"; with an empty status table the same query yields an
absent text and the displayed status value falls back to the raw id. -/
theorem race_results_status_join_witness :
    (rowRes44 ∈ get_race_results mEx (some 12) ∧
      ∃ st ∈ mEx.status, st.statusId = rowRes44.statusId ∧
        st.status = "Finished") ∧
    (rowRes44NoStatus ∈ get_race_results mNoStatus (some 12) ∧
      rowRes44NoStatus.statusText = none ∧
      resultStatusValue mNoStatus rowRes44NoStatus =
        rowRes44NoStatus.statusId.map (fun n => toString n)) :=
  have h1 : rowRes44 ∈ get_race_results mEx (some 12) := by decide
  have h2 : rowRes44NoStatus ∈ get_race_results mNoStatus (some 12) := by
    decide
  ⟨⟨h1, (race_results_status_join mEx (some 12) rowRes44 h1).2.1 "Finished"
      (by decide)⟩,
   ⟨h2, ((race_results_status_join mNoStatus (some 12) rowRes44NoStatus
        h2).2.2 rfl).1,
    ((race_results_status_join mNoStatus (some 12) rowRes44NoStatus
        h2).2.2 rfl).2⟩⟩

/-! ## Helper lemmas for the status-count accounting -/

theorem race_results_statusText_none_of_status_empty {m : F1DataModel}
    {rid : Option Nat} (h : m.status = []) :
    ∀ row ∈ get_race_results m rid, row.statusText = none := by
  intro row hrow
  simp only [get_race_results] at hrow
  split at hrow
  · exact absurd hrow (List.not_mem_nil _)
  · split at hrow
    · rcases List.mem_map.mp hrow with ⟨q, _, hmk⟩
      subst hmk
      rfl
    · rename_i hse
      exact absurd (by simp [h]) hse

theorem length_filterMap_statusText (res : List ResultOut) :
    (res.filterMap (fun r => r.statusText)).length =
      (res.filter (fun r => r.statusText.isSome)).length := by
  induction res with
  | nil => rfl
  | cons r rs ih =>
    cases hr : r.statusText <;>
      simp [List.filterMap_cons, List.filter_cons, hr, ih]

theorem sortBy_map_sum (le : StatusCountRow → StatusCountRow → Bool)
    (l : List StatusCountRow) :
    ((sortBy le l).map (fun g => g.count)).sum =
      (l.map (fun g => g.count)).sum :=
  ((sortBy_perm le l).map _).sum_eq

theorem status_group_sum (texts : List String) :
    ((texts.dedup.map (fun t => ({ statusText := t, count := texts.count t }
        : StatusCountRow))).map (fun g => g.count)).sum = texts.length := by
  rw [List.map_map]
  have h2 : ((fun g : StatusCountRow => g.count) ∘
      (fun t => ({ statusText := t, count := texts.count t }
        : StatusCountRow))) = fun t => texts.count t := rfl
  rw [h2]
  exact sum_counts_eq_length texts texts.dedup (List.nodup_dedup _)
    (fun t ht => List.mem_dedup.mpr ht)

/-- C10: the counts returned by `get_status_counts_for_race` sum to the
number of race-result rows with a present status text — rows whose statusId
matched nothing are excluded — and that number can be strictly smaller than
the total number of result rows. -/
theorem status_counts_exclude_missing_status :
    (∀ (m : F1DataModel) (rid : Option Nat),
      ((get_status_counts_for_race m rid).map (fun g => g.count)).sum =
        ((get_race_results m rid).filter
          (fun r => r.statusText.isSome)).length ∧
      ((get_race_results m rid).filter
          (fun r => r.statusText.isSome)).length ≤
        (get_race_results m rid).length) ∧
    (∃ (m : F1DataModel) (rid : Option Nat),
      ((get_status_counts_for_race m rid).map (fun g => g.count)).sum <
        (get_race_results m rid).length) := by
  constructor
  · intro m rid
    refine ⟨?_, List.length_filter_le _ _⟩
    simp only [get_status_counts_for_race]
    split
    · rename_i hcond
      rw [Bool.or_eq_true] at hcond
      rcases hcond with hres | hns
      · rw [List.isEmpty_iff] at hres
        simp [hres]
      · have hstat : m.status = [] := by
          simpa [hasStatusTextCol] using hns
        have hall := @race_results_statusText_none_of_status_empty m rid hstat
        have hfil : (get_race_results m rid).filter
            (fun r => r.statusText.isSome) = [] :=
          List.filter_eq_nil_iff.mpr (fun r hr => by simp [hall r hr])
        simp [hfil]
    · rw [sortBy_map_sum, status_group_sum]
      exact length_filterMap_statusText _
  · exact ⟨mEx, some 12, by decide⟩

end F1
